import Mathlib

/-!
Shallow embedding of the snakeLoggerFile Go package.

Namespace `V0` embeds the snapshot in `src/unnamed/part_000` (six severity
levels including Report, `LogData` with a `SnakeName` field, name-based
routing in `writeToFile`).

Namespace `V1` embeds the first snapshot in `src/snakeLogger.go`
(`LogData` without `SnakeName`, id-based routing in `writeToFile`, a JSON
sink `writeJSONToFile`, and the minimal `String()` serializer).

Go strings are modelled at character granularity: Go's `msg[8:]` becomes
`strDrop msg 8`, `strings.HasPrefix` becomes `strStarts`, and `len`
becomes `strLen`. Time values (`t.Format(...)`, `t.UnixNano()`) are pure
inputs of the model, passed as a string and an integer.
-/

/-- Character-list matching used to embed Go's strings.HasPrefix:
listStarts ps cs is true when ps is an initial segment of cs. -/
def listStarts : List Char → List Char → Bool
  | [], _ => true
  | _ :: _, [] => false
  | p :: ps, c :: cs => if p = c then listStarts ps cs else false

/-- Embeds Go's strings.HasPrefix s pat. -/
def strStarts (s pat : String) : Bool :=
  listStarts pat.data s.data

/-- Embeds Go's len on a string (character granularity). -/
def strLen (s : String) : Nat :=
  s.data.length

/-- Embeds the Go slice s with its first n characters removed. -/
def strDrop (s : String) (n : Nat) : String :=
  String.mk (s.data.drop n)

theorem listStarts_take (ps : List Char) :
    ∀ cs : List Char, listStarts ps cs = true →
      cs.take ps.length = ps ∧ ps.length ≤ cs.length := by
  induction ps with
  | nil => intro cs _; simp
  | cons p ps ih =>
    intro cs h
    cases cs with
    | nil => simp [listStarts] at h
    | cons c cs =>
      rw [listStarts] at h
      by_cases hpc : p = c
      · rw [if_pos hpc] at h
        obtain ⟨ht, hl⟩ := ih cs h
        subst hpc
        simp [List.take, ht]
        omega
      · rw [if_neg hpc] at h
        exact absurd h (by simp)

theorem strStarts_short_eq (msg pat : String)
    (hp : strStarts msg pat = true) (hl : strLen msg < strLen pat + 1) :
    msg = pat := by
  obtain ⟨ht, hle⟩ := listStarts_take pat.data msg.data hp
  have hlen : msg.data.length = pat.data.length := by
    unfold strLen at hl
    omega
  have hdata : msg.data = pat.data := by
    have := List.take_length (l := msg.data)
    rw [hlen] at this
    rw [← this, ht]
  cases msg
  cases pat
  simp_all

namespace V0

/-- Severity enum of part_000: iota order Debug, Info, Warn, Error,
Report, Null. -/
inductive SnakeLoggerLevel
  | DebugLevel
  | InfoLevel
  | WarnLevel
  | ErrorLevel
  | ReportLevel
  | NullLevel
deriving DecidableEq, Repr

/-- The uint8 value each level has in Go (iota order of part_000). -/
def SnakeLoggerLevel.toNat : SnakeLoggerLevel → Nat
  | .DebugLevel => 0
  | .InfoLevel => 1
  | .WarnLevel => 2
  | .ErrorLevel => 3
  | .ReportLevel => 4
  | .NullLevel => 5

/-- The levelMap of part_000, as a function from level to its name. -/
def levelMap : SnakeLoggerLevel → String
  | .DebugLevel => "debug"
  | .InfoLevel => "info"
  | .WarnLevel => "warn"
  | .ErrorLevel => "error"
  | .ReportLevel => "report"
  | .NullLevel => "null"

/-- The entries of the Go levelMap, for the range loop in NewLogger. -/
def levelPairs : List (SnakeLoggerLevel × String) :=
  [(.DebugLevel, "debug"), (.InfoLevel, "info"), (.WarnLevel, "warn"),
   (.ErrorLevel, "error"), (.NullLevel, "null"), (.ReportLevel, "report")]

/-- LogData of part_000. -/
structure LogData where
  ID : String
  Sev : String
  Msg : String
  Timestamp : String
  UnixTimeStamp : Int
  Turn : Int
  Function : String
  SnakeName : String
deriving DecidableEq, Repr

/-- SnakeLogger of part_000. -/
structure SnakeLogger where
  level : SnakeLoggerLevel
  isNull : Bool
  id : String
  currentFunc : String
  currentTurn : Int
  name : String
deriving DecidableEq, Repr

/-- Outcome of one parseLog goroutine: it either returns early on the
level filter, panics on the out-of-range slice, or sends a record on
writeChan. -/
inductive ParseResult
  | panicked
  | filtered
  | submitted (r : LogData)
deriving DecidableEq, Repr

/-- True when the goroutine sent a record on the channel. -/
def ParseResult.submits : ParseResult → Bool
  | .submitted _ => true
  | _ => false

/-- The record sent on the channel, if any. -/
def ParseResult.record : ParseResult → Option LogData
  | .submitted r => some r
  | _ => none

/-- parseLog of part_000. The filter returns early when the logger level
exceeds the call level; otherwise the record is built from the logger
context, the GENERIC override rewrites Msg and ID (panicking when the
slice bound 8 exceeds the message length), and the record is submitted. -/
def parseLog (s : SnakeLogger) (level : SnakeLoggerLevel) (msg : String)
    (timestamp : String) (unixstamp : Int) : ParseResult :=
  if s.level.toNat > level.toNat then
    ParseResult.filtered
  else
    let thisLog : LogData :=
      { Msg := msg, Timestamp := timestamp, UnixTimeStamp := unixstamp,
        ID := s.id, Sev := levelMap level, Turn := s.currentTurn,
        Function := s.currentFunc, SnakeName := s.name }
    if strStarts msg "GENERIC" = true then
      if strLen msg < 8 then
        ParseResult.panicked
      else
        ParseResult.submitted { thisLog with Msg := strDrop msg 8, ID := "" }
    else
      ParseResult.submitted thisLog

/-- The public logging methods of part_000: Debug, Info, Warn, Error,
Report (and their f-variants, which reach parseLog with the same level
after formatting). -/
inductive CallKind
  | debug
  | info
  | warn
  | error
  | report
deriving DecidableEq, Repr

/-- The severity each public method passes to parseLog. -/
def callLevel : CallKind → SnakeLoggerLevel
  | .debug => .DebugLevel
  | .info => .InfoLevel
  | .warn => .WarnLevel
  | .error => .ErrorLevel
  | .report => .ReportLevel

/-- One public logging call: the spawned goroutine runs parseLog with the
method's level, the rendered message, and the captured time. -/
def logCall (s : SnakeLogger) (k : CallKind) (m : String)
    (ts : String) (ns : Int) : ParseResult :=
  parseLog s (callLevel k) m ts ns

/-- NewLogger of part_000: starts at InfoLevel with empty id, scans the
levelMap entries for a value equal to the level string, and takes that
entry's key; the index parameter is never read. The Go map range order is
immaterial because the level names are pairwise distinct. -/
def NewLogger (level : String) (index : Nat) : SnakeLogger :=
  let s : SnakeLogger :=
    { level := .InfoLevel, isNull := false, id := "",
      currentFunc := "", currentTurn := 0, name := "" }
  match levelPairs.find? (fun p => p.2 = level) with
  | some p => { s with level := p.1 }
  | none => s

/-- Routing of part_000's writeToFile: empty SnakeName concatenates
"generic.log" directly onto basedir (no path separator in the source);
otherwise Sprintf("%s/%s.log", basedir, name). -/
def routeFilenameByName (basedir : String) (m : LogData) : String :=
  if m.SnakeName = "" then
    basedir ++ "generic.log"
  else
    basedir ++ "/" ++ m.SnakeName ++ ".log"

end V0

namespace V1

/-- LogData of the first snapshot in snakeLogger.go (no SnakeName). -/
structure LogData where
  ID : String
  Sev : String
  Msg : String
  Timestamp : String
  UnixTimeStamp : Int
  Turn : Int
  Function : String
deriving DecidableEq, Repr

/-- The String() method of snakeLogger.go:
Sprintf("%v [%s] %s \n", l.UnixTimeStamp, l.Sev, l.Msg). -/
def LogData.goString (l : LogData) : String :=
  toString l.UnixTimeStamp ++ " [" ++ l.Sev ++ "] " ++ l.Msg ++ " \n"

/-- Routing of snakeLogger.go's writeToFile: empty ID goes to
basedir/generic.log, otherwise basedir/game-ID.log. -/
def routeFilename (basedir : String) (m : LogData) : String :=
  if m.ID = "" then
    basedir ++ "/generic.log"
  else
    basedir ++ "/game-" ++ m.ID ++ ".log"

/-- What one iteration of a writer loop does after handling a record:
log.Fatal exits the process, break leaves the consumption loop, and
otherwise the loop continues with the next record. -/
inductive WriterOutcome
  | fatalExit
  | breakLoop
  | next
deriving DecidableEq, Repr

/-- Which file-system operations fail during one loop iteration. -/
structure IOErrs where
  openErr : Bool
  writeErr : Bool
  closeErr : Bool
deriving DecidableEq, Repr

/-- Control flow of one iteration of writeToFile's loop in
snakeLogger.go: open failure hits log.Fatal; write failure prints and
breaks; close failure prints and the loop continues. -/
def writeToFileStep (e : IOErrs) : WriterOutcome :=
  if e.openErr = true then
    WriterOutcome.fatalExit
  else if e.writeErr = true then
    WriterOutcome.breakLoop
  else
    WriterOutcome.next

/-- Control flow of one iteration of writeJSONToFile's loop in
snakeLogger.go: marshal, open and write failures all print and break;
close failure prints and the loop continues. -/
def writeJSONToFileStep (marshalErr : Bool) (e : IOErrs) : WriterOutcome :=
  if marshalErr = true then
    WriterOutcome.breakLoop
  else if e.openErr = true then
    WriterOutcome.breakLoop
  else if e.writeErr = true then
    WriterOutcome.breakLoop
  else
    WriterOutcome.next

/-- Lower-case hex digit, as Go's encoding/json emits in \u escapes. -/
def hexDigit (n : Nat) : Char :=
  if n < 10 then Char.ofNat (48 + n) else Char.ofNat (87 + n)

/-- Go encoding/json escaping of one character inside a string value:
quote and backslash get a backslash, newline, carriage return and tab get
their two-character escapes, other control characters become \u00xx, and
the HTML-sensitive characters <, >, & become \u escapes as well. -/
def jsonEscapeChar (c : Char) : String :=
  if c = Char.ofNat 34 then "\\\""
  else if c = Char.ofNat 92 then "\\\\"
  else if c = Char.ofNat 10 then "\\n"
  else if c = Char.ofNat 13 then "\\r"
  else if c = Char.ofNat 9 then "\\t"
  else if c.toNat < 32 then
    String.mk ['\\', 'u', '0', '0', hexDigit (c.toNat / 16), hexDigit (c.toNat % 16)]
  else if c = Char.ofNat 60 then "\\u003c"
  else if c = Char.ofNat 62 then "\\u003e"
  else if c = Char.ofNat 38 then "\\u0026"
  else String.mk [c]

/-- Go encoding/json escaping of a whole string value. -/
def jsonEscape (s : String) : String :=
  String.join (s.data.map jsonEscapeChar)

/-- A JSON string literal for s, Go style. -/
def jsonQuote (s : String) : String :=
  "\"" ++ jsonEscape s ++ "\""

/-- json.Marshal of a LogData value: one object with the exported fields
in declaration order, no spaces, no trailing newline. -/
def jsonMarshal (l : LogData) : String :=
  "\x7b\"ID\":" ++ jsonQuote l.ID
    ++ ",\"Sev\":" ++ jsonQuote l.Sev
    ++ ",\"Msg\":" ++ jsonQuote l.Msg
    ++ ",\"Timestamp\":" ++ jsonQuote l.Timestamp
    ++ ",\"UnixTimeStamp\":" ++ toString l.UnixTimeStamp
    ++ ",\"Turn\":" ++ toString l.Turn
    ++ ",\"Function\":" ++ jsonQuote l.Function
    ++ "\x7d"

/-- Content appended to the JSON sink file by writeJSONToFile after the
listed records have been consumed without I/O failures: each iteration
writes exactly the marshalled bytes of its record. -/
def writeJSONFileContent (ms : List LogData) : String :=
  ms.foldl (fun acc m => acc ++ jsonMarshal m) ""

end V1

/-- A logger built at DebugLevel with default context. -/
def dbgLogger : V0.SnakeLogger :=
  { level := .DebugLevel, isNull := false, id := "", currentFunc := "",
    currentTurn := 0, name := "" }

/-- A logger built at InfoLevel with default context. -/
def infoLogger : V0.SnakeLogger :=
  { level := .InfoLevel, isNull := false, id := "", currentFunc := "",
    currentTurn := 0, name := "" }

/-- A logger at DebugLevel with a configured game id and context. -/
def gLogger : V0.SnakeLogger :=
  { level := .DebugLevel, isNull := false, id := "game1",
    currentFunc := "move", currentTurn := 3, name := "snek" }

/-- A record with empty SnakeName, as produced by a logger with no name. -/
def c3rec : V0.LogData :=
  { ID := "g1", Sev := "info", Msg := "m", Timestamp := "T",
    UnixTimeStamp := 0, Turn := 0, Function := "", SnakeName := "" }

/-- A concrete record for the text serializer. -/
def c6rec : V1.LogData :=
  { ID := "", Sev := "info", Msg := "hi", Timestamp := "T",
    UnixTimeStamp := 123, Turn := 0, Function := "" }

/-- A record with id abc and no other routing key. -/
def c7recAbc : V1.LogData :=
  { ID := "abc", Sev := "info", Msg := "m", Timestamp := "T",
    UnixTimeStamp := 0, Turn := 0, Function := "" }

/-- A record with empty id. -/
def c7recEmpty : V1.LogData :=
  { ID := "", Sev := "info", Msg := "m", Timestamp := "T",
    UnixTimeStamp := 0, Turn := 0, Function := "" }

/-- First concrete record for the JSON sink. -/
def c8recA : V1.LogData :=
  { ID := "a", Sev := "info", Msg := "m1", Timestamp := "T1",
    UnixTimeStamp := 1, Turn := 0, Function := "" }

/-- Second concrete record for the JSON sink. -/
def c8recB : V1.LogData :=
  { ID := "b", Sev := "warn", Msg := "m2", Timestamp := "T2",
    UnixTimeStamp := 2, Turn := 1, Function := "f" }

/-- C5 (counterexample): the claim quantifies over s1 <= s2, but at
s1 = s2 = Info a logger with threshold Info does submit a record for an
Info call, so equal severities are not suppressed. -/
theorem c5_ties_not_suppressed :
    (V0.callLevel V0.CallKind.info).toNat ≤ infoLogger.level.toNat ∧
    (V0.logCall infoLogger V0.CallKind.info "hello" "T" 0).submits = true := by
  decide

/-- C5 (amended): for strictly smaller call severity, s1 < threshold s2,
every logging call is suppressed by the filter: parseLog returns before
constructing or submitting any record. -/
theorem c5_strict_threshold_suppresses (s : V0.SnakeLogger) (k : V0.CallKind)
    (msg ts : String) (ns : Int)
    (h : (V0.callLevel k).toNat < s.level.toNat) :
    V0.logCall s k msg ts ns = V0.ParseResult.filtered := by
  simp [V0.logCall, V0.parseLog, h]

/-- Witness for c5_strict_threshold_suppresses at a concrete input: an
Info-threshold logger suppresses a Debug call. -/
theorem c5_strict_threshold_suppresses_witness :
    V0.logCall infoLogger V0.CallKind.debug "hello" "T" 0 =
      V0.ParseResult.filtered :=
  c5_strict_threshold_suppresses infoLogger V0.CallKind.debug "hello" "T" 0
    (by decide)

/-- C1 (counterexample): for the message GENERIC itself the formatting
goroutine panics, so a call whose severity passes the threshold still
submits no record, refuting the unconditional iff of the claim. -/
theorem c1_generic_message_not_submitted :
    dbgLogger.level.toNat ≤ (V0.callLevel V0.CallKind.debug).toNat ∧
    (V0.logCall dbgLogger V0.CallKind.debug "GENERIC" "T" 0).submits = false ∧
    V0.logCall dbgLogger V0.CallKind.debug "GENERIC" "T" 0 =
      V0.ParseResult.panicked := by
  decide

/-- C1 (amended): for every logger and every logging call whose rendered
message is not the bare string GENERIC, a record is constructed and
submitted iff the call severity is at least the logger threshold (ties
included), and a Null-threshold logger submits no record for any call. -/
theorem c1_filter_iff (s : V0.SnakeLogger) (k : V0.CallKind)
    (msg ts : String) (ns : Int) (hmsg : msg ≠ "GENERIC") :
    ((V0.logCall s k msg ts ns).submits = true ↔
      s.level.toNat ≤ (V0.callLevel k).toNat) ∧
    (s.level = V0.SnakeLoggerLevel.NullLevel →
      V0.logCall s k msg ts ns = V0.ParseResult.filtered) := by
  have hcall : (V0.callLevel k).toNat < 5 := by
    cases k <;> decide
  constructor
  · by_cases hf : s.level.toNat > (V0.callLevel k).toNat
    · simp [V0.logCall, V0.parseLog, hf, V0.ParseResult.submits]
    · by_cases hp : strStarts msg "GENERIC" = true
      · have hlen : ¬ strLen msg < 8 := by
          intro hl
          refine hmsg (strStarts_short_eq msg "GENERIC" hp ?_)
          have h7 : strLen "GENERIC" = 7 := by decide
          omega
        simp [V0.logCall, V0.parseLog, hf, hp, hlen, V0.ParseResult.submits]
        omega
      · simp [V0.logCall, V0.parseLog, hf, hp, V0.ParseResult.submits]
        omega
  · intro hnull
    have hf : s.level.toNat > (V0.callLevel k).toNat := by
      rw [hnull]
      show (V0.callLevel k).toNat < 5
      exact hcall
    simp [V0.logCall, V0.parseLog, hf]

/-- Witness for c1_filter_iff at a concrete input: a Debug logger and an
Info call with message hello. -/
theorem c1_filter_iff_witness :
    ((V0.logCall dbgLogger V0.CallKind.info "hello" "T" 0).submits = true ↔
      dbgLogger.level.toNat ≤ (V0.callLevel V0.CallKind.info).toNat) ∧
    (dbgLogger.level = V0.SnakeLoggerLevel.NullLevel →
      V0.logCall dbgLogger V0.CallKind.info "hello" "T" 0 =
        V0.ParseResult.filtered) :=
  c1_filter_iff dbgLogger V0.CallKind.info "hello" "T" 0 (by decide)

/-- C2: a call whose message starts with GENERIC and has at least the 8
characters of prefix plus separator, and which passes the level filter,
submits a record with empty ID and with the first 8 characters stripped
from the message, whatever id the logger carries. -/
theorem c2_generic_override (s : V0.SnakeLogger) (k : V0.CallKind)
    (msg ts : String) (ns : Int)
    (hlev : s.level.toNat ≤ (V0.callLevel k).toNat)
    (hpre : strStarts msg "GENERIC" = true)
    (hlen : 8 ≤ strLen msg) :
    (V0.logCall s k msg ts ns).record.map V0.LogData.ID = some "" ∧
    (V0.logCall s k msg ts ns).record.map V0.LogData.Msg =
      some (strDrop msg 8) := by
  have hnl : ¬ s.level.toNat > (V0.callLevel k).toNat := by omega
  have h8 : ¬ strLen msg < 8 := by omega
  simp [V0.logCall, V0.parseLog, hnl, hpre, h8, V0.ParseResult.record]

/-- Witness for c2_generic_override: logger with id game1, message
GENERIC:hi, yielding an empty id and message hi. -/
theorem c2_generic_override_witness :
    (V0.logCall gLogger V0.CallKind.info "GENERIC:hi" "T" 5).record.map
      V0.LogData.ID = some "" ∧
    (V0.logCall gLogger V0.CallKind.info "GENERIC:hi" "T" 5).record.map
      V0.LogData.Msg = some (strDrop "GENERIC:hi" 8) :=
  c2_generic_override gLogger V0.CallKind.info "GENERIC:hi" "T" 5
    (by decide) (by decide) (by decide)

/-- C9: parseLog never panics when every GENERIC-prefixed message has at
least 8 characters, and it does panic on the 7-character message GENERIC
itself, where the slice lower bound 8 exceeds the message length. -/
theorem c9_generic_slice_panic :
    (∀ (s : V0.SnakeLogger) (k : V0.CallKind) (msg ts : String) (ns : Int),
        (strStarts msg "GENERIC" = true → 8 ≤ strLen msg) →
        V0.logCall s k msg ts ns ≠ V0.ParseResult.panicked) ∧
    V0.logCall dbgLogger V0.CallKind.debug "GENERIC" "T" 0 =
      V0.ParseResult.panicked := by
  constructor
  · intro s k msg ts ns hpre hcontra
    by_cases hf : s.level.toNat > (V0.callLevel k).toNat
    · simp [V0.logCall, V0.parseLog, hf] at hcontra
    · by_cases hp : strStarts msg "GENERIC" = true
      · simp [V0.logCall, V0.parseLog, hf, hp,
          Nat.not_lt.mpr (hpre hp)] at hcontra
      · simp [V0.logCall, V0.parseLog, hf, hp] at hcontra
  · decide

/-- Witness for the quantified half of c9_generic_slice_panic at a
concrete non-GENERIC message. -/
theorem c9_generic_slice_panic_witness :
    V0.logCall dbgLogger V0.CallKind.info "hello" "T" 0 ≠
      V0.ParseResult.panicked :=
  c9_generic_slice_panic.1 dbgLogger V0.CallKind.info "hello" "T" 0
    (by decide)

/-- C10: NewLogger never reads its index parameter, so two calls with the
same level string and any two indices yield identical loggers, and the
result always has empty id, empty function label, turn zero and empty
name. -/
theorem c10_newlogger_index_independent (level : String) (i j : Nat) :
    V0.NewLogger level i = V0.NewLogger level j ∧
    (V0.NewLogger level i).id = "" ∧
    (V0.NewLogger level i).currentFunc = "" ∧
    (V0.NewLogger level i).currentTurn = 0 ∧
    (V0.NewLogger level i).name = "" := by
  have hfields : ∀ n : Nat, (V0.NewLogger level n).id = "" ∧
      (V0.NewLogger level n).currentFunc = "" ∧
      (V0.NewLogger level n).currentTurn = 0 ∧
      (V0.NewLogger level n).name = "" := by
    intro n
    unfold V0.NewLogger
    cases V0.levelPairs.find? (fun p => p.2 = level) <;> simp
  exact ⟨rfl, hfields i⟩

/-- C4 (counterexample): on an open failure the JSON writer breaks its
loop instead of exiting the process, so the two sinks do not behave
alike and the process does not terminate with the JSON writer task. -/
theorem c4_json_open_failure_not_fatal :
    V1.writeJSONToFileStep false
        { openErr := true, writeErr := false, closeErr := false } =
      V1.WriterOutcome.breakLoop ∧
    V1.writeJSONToFileStep false
        { openErr := true, writeErr := false, closeErr := false } ≠
      V1.WriterOutcome.fatalExit := by
  decide

/-- C4 (amended): an open failure always ends the writer's consumption
in both sinks, but the text sink exits the process via log.Fatal while
the JSON sink merely breaks out of its loop without exiting the
process. -/
theorem c4_open_failure_ends_writer (m : Bool) (e : V1.IOErrs)
    (h : e.openErr = true) :
    V1.writeToFileStep e = V1.WriterOutcome.fatalExit ∧
    V1.writeJSONToFileStep m e = V1.WriterOutcome.breakLoop ∧
    V1.writeJSONToFileStep m e ≠ V1.WriterOutcome.fatalExit := by
  cases m <;> simp [V1.writeToFileStep, V1.writeJSONToFileStep, h]

/-- Witness for c4_open_failure_ends_writer at a concrete failure
pattern. -/
theorem c4_open_failure_ends_writer_witness :
    V1.writeToFileStep { openErr := true, writeErr := false, closeErr := false } =
      V1.WriterOutcome.fatalExit ∧
    V1.writeJSONToFileStep false
        { openErr := true, writeErr := false, closeErr := false } =
      V1.WriterOutcome.breakLoop ∧
    V1.writeJSONToFileStep false
        { openErr := true, writeErr := false, closeErr := false } ≠
      V1.WriterOutcome.fatalExit :=
  c4_open_failure_ends_writer false
    { openErr := true, writeErr := false, closeErr := false } rfl

/-- C6 (counterexample): the minimal serializer emits a space between the
message and the newline, so its output differs from the claimed line
with no other characters. -/
theorem c6_trailing_space :
    V1.LogData.goString c6rec = "123 [info] hi \n" ∧
    V1.LogData.goString c6rec ≠ "123 [info] hi\n" := by
  decide

/-- C6 (amended): the minimal form is exactly the nanosecond epoch
integer, a space, the severity in square brackets, a space, the message,
a space, and a terminating newline. -/
theorem c6_minimal_line_format (l : V1.LogData) :
    (V1.LogData.goString l).data =
      (toString l.UnixTimeStamp).data ++ (" [").data ++ l.Sev.data
        ++ ("] ").data ++ l.Msg.data ++ (" \n").data := by
  simp [V1.LogData.goString]

/-- C7: under id-based routing an empty id resolves to
basedir/generic.log, a non-empty id to basedir/game-id.log, and the id
abc in particular to basedir/game-abc.log. -/
theorem c7_id_routing (basedir : String) (m : V1.LogData) :
    (m.ID = "" →
      V1.routeFilename basedir m = basedir ++ "/generic.log") ∧
    (m.ID ≠ "" →
      V1.routeFilename basedir m = basedir ++ "/game-" ++ m.ID ++ ".log") ∧
    (m.ID = "abc" →
      V1.routeFilename basedir m = basedir ++ "/game-abc.log") := by
  refine ⟨fun h => by simp [V1.routeFilename, h],
          fun h => by simp [V1.routeFilename, h], fun h => ?_⟩
  simp [V1.routeFilename, h, String.append_assoc]

/-- Witness for c7_id_routing at id abc and at the empty id. -/
theorem c7_id_routing_witness :
    V1.routeFilename "/tmp/battlesnakeLogs" c7recAbc =
      "/tmp/battlesnakeLogs" ++ "/game-abc.log" ∧
    V1.routeFilename "/tmp/battlesnakeLogs" c7recEmpty =
      "/tmp/battlesnakeLogs" ++ "/generic.log" :=
  ⟨(c7_id_routing "/tmp/battlesnakeLogs" c7recAbc).2.2 rfl,
   (c7_id_routing "/tmp/battlesnakeLogs" c7recEmpty).1 rfl⟩

/-- C3: in the name-routed writer a record with empty SnakeName resolves
to basedir concatenated directly with generic.log, with no path
separator, which is not the path generic.log inside the base
directory. -/
theorem c3_generic_path_outside_basedir :
    V0.routeFilenameByName "/tmp/battlesnakeLogs" c3rec =
      "/tmp/battlesnakeLogsgeneric.log" ∧
    V0.routeFilenameByName "/tmp/battlesnakeLogs" c3rec ≠
      "/tmp/battlesnakeLogs/generic.log" := by
  decide

set_option maxRecDepth 8192 in
/-- C8 (counterexample): two records consumed by the JSON writer are
appended back to back with no newline anywhere, so appended records are
not newline-delimited. -/
theorem c8_no_newline_delimiter :
    V1.writeJSONFileContent [c8recA, c8recB] =
      V1.jsonMarshal c8recA ++ V1.jsonMarshal c8recB ∧
    (V1.writeJSONFileContent [c8recA, c8recB]).data.contains
      (Char.ofNat 10) = false := by
  decide

/-- C8 (amended): each consumed record appends exactly its marshalled
JSON object, with no delimiter between consecutive records. -/
theorem c8_append_no_delimiter (ms : List V1.LogData) (m : V1.LogData) :
    V1.writeJSONFileContent (ms ++ [m]) =
      V1.writeJSONFileContent ms ++ V1.jsonMarshal m := by
  simp [V1.writeJSONFileContent, List.foldl_append]
